import Mathlib

/-!
Verification of the LevelUp ATS backend (FastAPI, `main.py` / `schemas.py`)
against its natural-language specification.

The document store is MongoDB accessed through a thin adapter
(`database.py`: `db`, `create_document`, `get_documents`). Handlers in
`main.py` validate request bodies with pydantic models and delegate to the
adapter. Documents are embedded as association lists of field name to value;
the store is a map from collection to a list of (internal id, document).
-/

/-- A JSON-ish field value as stored in a document. -/
inductive Value where
  | str (s : String)
  | int (n : Int)
  | bool (b : Bool)
  | time (t : Nat)
  | listV (vs : List Value)
  | mapV (kvs : List (String × Value))
  | null

/-- A document: ordered association list of field name to value
(Python dicts preserve insertion order; keys are unique in practice). -/
abbrev Doc := List (String × Value)

/-- Look up a field of a document (first occurrence, as a Python dict
built without duplicate keys). -/
def lookupField (d : Doc) (k : String) : Option Value :=
  (d.find? (fun p => p.1 = k)).map Prod.snd

/-- Predicate: `d` has key `k`. -/
def hasKey (d : Doc) (k : String) : Bool :=
  d.any (fun p => p.1 = k)

/-- Python dict update `{**d, k: v}` / MongoDB `$set` of a single field:
value replaced in place if the key exists, appended otherwise. -/
def setField (d : Doc) (k : String) (v : Value) : Doc :=
  if hasKey d k then d.map (fun p => if p.1 = k then (k, v) else p)
  else d ++ [(k, v)]

/-- MongoDB `$set` of several fields, applied left to right. -/
def setFields (d : Doc) (kvs : List (String × Value)) : Doc :=
  kvs.foldl (fun acc kv => setField acc kv.1 kv.2) d

/-- The seven collections of the ATS (`GET /schema` in `main.py`). -/
inductive Coll where
  | job | candidate | interview | feedback | offer | onboardingtask | message
deriving DecidableEq, Repr

/-- The document store: per collection, a list of documents tagged with their
internal (MongoDB `_id`) identifier, plus the next identifier to assign.
Modelled from the spec: `database.py` is not in `src/`; per §3 every record
has a unique, store-assigned identifier, so internal ids are drawn from a
monotone counter. -/
structure Store where
  docs : Coll → List (Nat × Doc)
  nextId : Nat

/-- Store invariant: every internal id already present is below the counter,
hence the next assigned id is fresh. -/
def StoreInv (s : Store) : Prop :=
  ∀ c : Coll, ∀ p ∈ s.docs c, p.1 < s.nextId

/-- The empty store. -/
def Store.empty : Store := ⟨fun _ => [], 0⟩

/-- Modelled from the spec: the adapter returns the newly assigned identifier
as an opaque string (§4.1). Rendered injectively and never empty; only
distinctness and non-emptiness of the string are observable. -/
def renderId (n : Nat) : String :=
  String.mk (List.replicate (n + 1) 'i')

/-- Modelled from the spec: `create_document(collection, payload) -> id`
(`database.py`, absent from `src/`): inserts the payload verbatim into the
named collection and returns the newly assigned identifier as an opaque
string (§4.1). -/
def create_document (c : Coll) (payload : Doc) (s : Store) : String × Store :=
  (renderId s.nextId,
   { docs := fun c2 => if c2 = c then s.docs c ++ [(s.nextId, payload)] else s.docs c2,
     nextId := s.nextId + 1 })

/-- Modelled from the spec: `get_documents(collection)` (`database.py`,
absent from `src/`): returns all documents of the collection, converting the
internal identifier into a string field `id` in each returned record (§4.1). -/
def get_documents (c : Coll) (s : Store) : List Doc :=
  (s.docs c).map (fun p => ("id", Value.str (renderId p.1)) :: p.2)

/-- A MongoDB filter as used in `main.py`: match all, one string field
`$in` a set, one string field `$nin` a set, or one string field equal. -/
inductive MFilter where
  | all
  | inSet (field : String) (vals : List String)
  | ninSet (field : String) (vals : List String)
  | eqStr (field : String) (v : String)

/-- MongoDB filter semantics: `$in` of strings matches a document whose
field holds one of the strings; `$nin` matches its complement, including
documents missing the field; `field: v` is string equality. -/
def docMatches (f : MFilter) (d : Doc) : Bool :=
  match f with
  | .all => true
  | .inSet k vals => match lookupField d k with
      | some (.str s) => vals.contains s
      | _ => false
  | .ninSet k vals => match lookupField d k with
      | some (.str s) => !(vals.contains s)
      | _ => true
  | .eqStr k v => match lookupField d k with
      | some (.str s) => s = v
      | _ => false

/-- MongoDB `collection.count_documents(filter)`. -/
def count_documents (c : Coll) (f : MFilter) (s : Store) : Nat :=
  ((s.docs c).filter (fun p => docMatches f p.2)).length

/-- MongoDB `collection.find_one(filter)`: first matching document. -/
def find_one (c : Coll) (f : MFilter) (s : Store) : Option (Nat × Doc) :=
  (s.docs c).find? (fun p => docMatches f p.2)

/-- MongoDB `update_one({_id: oid}, {$set: kvs})` on the documents of one
collection: applies `$set` to the first document whose id matches (at most
one, ids being unique), leaves everything else in place. -/
def updateFirst (oid : Nat) (kvs : List (String × Value)) :
    List (Nat × Doc) → List (Nat × Doc)
  | [] => []
  | (i, d) :: rest =>
      if i = oid then (i, setFields d kvs) :: rest
      else (i, d) :: updateFirst oid kvs rest

/-- MongoDB `db[c].update_one({_id: oid}, {$set: kvs})` on the store. -/
def update_one (c : Coll) (oid : Nat) (kvs : List (String × Value)) (s : Store) : Store :=
  { s with docs := fun c2 => if c2 = c then updateFirst oid kvs (s.docs c) else s.docs c2 }

/-- Model of `bson.ObjectId(s)`: parses the path id into the store's native id type,
raising (here: `none`) when the string is not a well-formed identifier.
Modelled from the spec: ids are opaque strings produced by `renderId`;
a string is well-formed exactly when it is such a rendering. -/
def parseObjectId (s : String) : Option Nat :=
  if s.length = 0 then none
  else if s.data.all (fun ch => ch = 'i') then some (s.length - 1) else none

/-- An HTTP error response (`HTTPException(status_code, detail)`). -/
structure HTTPError where
  status : Nat
  detail : String
deriving DecidableEq, Repr

/-- Encode a pydantic `Optional[str]` field: `None` becomes JSON null. -/
def optStr : Option String → Value
  | none => .null
  | some s => .str s

-- ---------- Request models (`main.py`, pydantic `BaseModel`s) ----------

/-- Model of `JobIn` (`main.py`): note `status` is a plain `str`, not the
`Literal` enum of `schemas.Job`. -/
structure JobIn where
  title : String
  department : String
  location : String := "Remote"
  status : String := "open"
  owner : String
  description : Option String := none

/-- Dump `JobIn.model_dump()`: the declared fields in order. -/
def JobIn.model_dump (j : JobIn) : Doc :=
  [("title", .str j.title), ("department", .str j.department),
   ("location", .str j.location), ("status", .str j.status),
   ("owner", .str j.owner), ("description", optStr j.description)]

/-- Model of `CandidateIn` (`main.py`): `email` is a plain `str` (not `EmailStr`)
and `stage` a plain `str` (not the `Literal` enum of `schemas.Candidate`). -/
structure CandidateIn where
  name : String
  email : String
  phone : Option String := none
  current_role : Option String := none
  stage : String := "applied"
  resume_url : Option String := none
  skills : List String := []
  assessment_scores : Option (List (String × Value)) := none
  notes : Option String := none
  job_id : Option String := none
  salary_expectation : Option String := none
  avatar_url : Option String := none

/-- Dump `CandidateIn.model_dump()`. -/
def CandidateIn.model_dump (c : CandidateIn) : Doc :=
  [("name", .str c.name), ("email", .str c.email), ("phone", optStr c.phone),
   ("current_role", optStr c.current_role), ("stage", .str c.stage),
   ("resume_url", optStr c.resume_url),
   ("skills", .listV (c.skills.map .str)),
   ("assessment_scores", match c.assessment_scores with
      | none => .null
      | some m => .mapV m),
   ("notes", optStr c.notes), ("job_id", optStr c.job_id),
   ("salary_expectation", optStr c.salary_expectation),
   ("avatar_url", optStr c.avatar_url)]

/-- Model of `InterviewIn` (`main.py`). -/
structure InterviewIn where
  candidate_id : String
  candidate_name : String
  interviewer : String
  time : Nat
  status : String := "scheduled"
  meeting_url : Option String := none

/-- Dump `InterviewIn.model_dump()`. -/
def InterviewIn.model_dump (i : InterviewIn) : Doc :=
  [("candidate_id", .str i.candidate_id), ("candidate_name", .str i.candidate_name),
   ("interviewer", .str i.interviewer), ("time", .time i.time),
   ("status", .str i.status), ("meeting_url", optStr i.meeting_url)]

/-- Model of `FeedbackIn` (`main.py`). -/
structure FeedbackIn where
  interview_id : String
  candidate_id : String
  ratings : List (String × Int)
  recommendation : String
  comments : Option String := none

/-- Dump `FeedbackIn.model_dump()`. -/
def FeedbackIn.model_dump (f : FeedbackIn) : Doc :=
  [("interview_id", .str f.interview_id), ("candidate_id", .str f.candidate_id),
   ("ratings", .mapV (f.ratings.map (fun p => (p.1, Value.int p.2)))),
   ("recommendation", .str f.recommendation), ("comments", optStr f.comments)]

/-- Model of `OfferIn` (`main.py`). -/
structure OfferIn where
  candidate_id : String
  candidate_name : String
  role : String
  proposed_salary : String
  status : String := "draft"
  template_name : Option String := none

/-- Dump `OfferIn.model_dump()`. -/
def OfferIn.model_dump (o : OfferIn) : Doc :=
  [("candidate_id", .str o.candidate_id), ("candidate_name", .str o.candidate_name),
   ("role", .str o.role), ("proposed_salary", .str o.proposed_salary),
   ("status", .str o.status), ("template_name", optStr o.template_name)]

/-- Model of `OnboardingTaskIn` (`main.py`). -/
structure OnboardingTaskIn where
  candidate_id : String
  task : String
  assignee : String := "HR"
  status : String := "pending"

/-- Dump `OnboardingTaskIn.model_dump()`. -/
def OnboardingTaskIn.model_dump (t : OnboardingTaskIn) : Doc :=
  [("candidate_id", .str t.candidate_id), ("task", .str t.task),
   ("assignee", .str t.assignee), ("status", .str t.status)]

/-- Model of `MessageIn` (`main.py`): only `sender`, `receiver`, `content` —
no `timestamp` field is declared, unlike `schemas.Message`. -/
structure MessageIn where
  sender : String
  receiver : String
  content : String

/-- Dump `MessageIn.model_dump()`. -/
def MessageIn.model_dump (m : MessageIn) : Doc :=
  [("sender", .str m.sender), ("receiver", .str m.receiver),
   ("content", .str m.content)]

-- ---------- Declared enumerations (`schemas.py` `Literal` fields) ----------

/-- Declared `schemas.Job.status` values. -/
def jobStatuses : List String := ["draft", "open", "paused", "closed"]

/-- Declared `schemas.Candidate.stage` values. -/
def candidateStages : List String :=
  ["applied", "screening", "interview", "offer", "hired", "rejected"]

/-- Declared `schemas.Interview.status` values. -/
def interviewStatuses : List String := ["scheduled", "completed", "cancelled"]

/-- Declared `schemas.Feedback.recommendation` values. -/
def feedbackRecommendations : List String := ["proceed", "reject", "hold"]

/-- Declared `schemas.Offer.status` values. -/
def offerStatuses : List String :=
  ["draft", "routing", "approved", "sent", "accepted", "declined"]

-- ---------- CRUD handlers (`main.py`) ----------

/-- Handler of `POST /api/jobs`. -/
def create_job (job : JobIn) (s : Store) : String × Store :=
  create_document .job job.model_dump s

/-- Handler of `GET /api/jobs`: empty list when the store is unavailable. -/
def list_jobs (odb : Option Store) : List Doc :=
  match odb with
  | none => []
  | some s => get_documents .job s

/-- Handler of `POST /api/candidates`. -/
def create_candidate (candidate : CandidateIn) (s : Store) : String × Store :=
  create_document .candidate candidate.model_dump s

/-- Handler of `GET /api/candidates`. -/
def list_candidates (odb : Option Store) : List Doc :=
  match odb with
  | none => []
  | some s => get_documents .candidate s

/-- Handler of `POST /api/interviews`. -/
def create_interview (interview : InterviewIn) (s : Store) : String × Store :=
  create_document .interview interview.model_dump s

/-- Handler of `POST /api/interviews/{interview_id}/feedback`: inserts
`{**feedback.model_dump(), "interview_id": interview_id}` — the Python dict
literal keeps the body's key order but the path parameter's value wins. -/
def create_feedback (interview_id : String) (feedback : FeedbackIn) (s : Store) :
    String × Store :=
  create_document .feedback
    (setField feedback.model_dump "interview_id" (.str interview_id)) s

/-- Handler of `POST /api/offers`. -/
def create_offer (offer : OfferIn) (s : Store) : String × Store :=
  create_document .offer offer.model_dump s

/-- Handler of `POST /api/onboarding`. -/
def create_onboarding (task : OnboardingTaskIn) (s : Store) : String × Store :=
  create_document .onboardingtask task.model_dump s

/-- Handler of `POST /api/messages`: inserts `msg.model_dump()` verbatim — nothing
adds a timestamp. -/
def create_message (msg : MessageIn) (s : Store) : String × Store :=
  create_document .message msg.model_dump s

/-- Handler of `GET /api/messages`. -/
def list_messages (odb : Option Store) : List Doc :=
  match odb with
  | none => []
  | some s => get_documents .message s

-- ---------- State-transition endpoints (`main.py`) ----------

/-- Body of `POST /api/candidates/{id}/stage` (`StageUpdate`): a required
plain string — pydantic accepts any string, including the empty one. -/
structure StageUpdate where
  stage : String

/-- Body of `POST /api/offers/{id}/status` (`OfferStatus`). -/
structure OfferStatus where
  status : String

/-- Handler of `POST /api/candidates/{candidate_id}/stage`: 500 when the store handle
is absent; otherwise a `try` block parses the id with `ObjectId` and runs
`update_one` with `$set {stage, updated_at: now}`; ANY exception inside the
`try` — an unparseable id or a store error during the update, injected here
as `storeErr` — is caught and re-raised as a 400 with the raw message. -/
def update_candidate_stage (candidate_id : String) (payload : StageUpdate)
    (now : Nat) (odb : Option Store) (storeErr : Option String) :
    Except HTTPError (Store × String) :=
  match odb with
  | none => .error ⟨500, "Database not available"⟩
  | some s =>
    match parseObjectId candidate_id with
    | none => .error ⟨400, "invalid ObjectId"⟩
    | some oid =>
      match storeErr with
      | some msg => .error ⟨400, msg⟩
      | none =>
        .ok (update_one .candidate oid
          [("stage", .str payload.stage), ("updated_at", .time now)] s, "ok")

/-- Handler of `POST /api/offers/{offer_id}/status`: same shape as the candidate stage
endpoint, on the `offer` collection's `status` field. -/
def update_offer_status (offer_id : String) (payload : OfferStatus)
    (now : Nat) (odb : Option Store) (storeErr : Option String) :
    Except HTTPError (Store × String) :=
  match odb with
  | none => .error ⟨500, "Database not available"⟩
  | some s =>
    match parseObjectId offer_id with
    | none => .error ⟨400, "invalid ObjectId"⟩
    | some oid =>
      match storeErr with
      | some msg => .error ⟨400, msg⟩
      | none =>
        .ok (update_one .offer oid
          [("status", .str payload.status), ("updated_at", .time now)] s, "ok")

-- ---------- Metrics (`main.py`) ----------

/-- Response of `GET /api/metrics`. -/
structure Metrics where
  total_jobs : Nat
  active_candidates : Nat
  offers_sent : Nat
  time_to_fill : Nat
deriving DecidableEq, Repr

/-- The local `count` helper of `get_metrics`: 0 when the store handle is
absent, otherwise `count_documents`. -/
def metrics_count (odb : Option Store) (c : Coll) (f : MFilter) : Nat :=
  match odb with
  | none => 0
  | some s => count_documents c f s

/-- Handler of `GET /api/metrics`: live counts plus the hardcoded demo
`time_to_fill = 24`. -/
def get_metrics (odb : Option Store) : Metrics :=
  { total_jobs := metrics_count odb .job .all,
    active_candidates :=
      metrics_count odb .candidate (.ninSet "stage" ["rejected", "hired"]),
    offers_sent :=
      metrics_count odb .offer (.inSet "status" ["sent", "accepted", "declined"]),
    time_to_fill := 24 }

-- ---------- Seed endpoint (`main.py`) ----------

/-- The two sample jobs of `seed_demo_data` (dates relative to `now`,
3 days = 259200 seconds). -/
def sampleJobs (now : Nat) : List Doc :=
  [[("title", .str "Senior Frontend Engineer"), ("department", .str "Engineering"),
    ("location", .str "Remote"), ("status", .str "open"),
    ("owner", .str "Alex Johnson"),
    ("description", .str "Own the web UI and design systems."),
    ("date_posted", .time now)],
   [("title", .str "Product Manager"), ("department", .str "Product"),
    ("location", .str "NYC"), ("status", .str "open"),
    ("owner", .str "Priya Sharma"),
    ("description", .str "Drive roadmap and outcomes."),
    ("date_posted", .time (now - 259200))]]

/-- The three sample candidates of `seed_demo_data`. -/
def sampleCandidates : List Doc :=
  [[("name", .str "Jordan Lee"), ("email", .str "jordan@example.com"),
    ("current_role", .str "Frontend Engineer"), ("stage", .str "interview"),
    ("skills", .listV [.str "React", .str "TypeScript", .str "Tailwind"]),
    ("assessment_scores", .mapV [("technical", .int 85), ("culture", .int 78),
      ("communication", .int 88)]),
    ("avatar_url", .str "https://i.pravatar.cc/120?img=5")],
   [("name", .str "Samira Khan"), ("email", .str "samira@example.com"),
    ("current_role", .str "Product Manager"), ("stage", .str "applied"),
    ("skills", .listV [.str "Roadmapping", .str "Analytics", .str "User Research"]),
    ("assessment_scores", .mapV [("technical", .int 70), ("culture", .int 90),
      ("communication", .int 92)]),
    ("avatar_url", .str "https://i.pravatar.cc/120?img=32")],
   [("name", .str "Diego Martinez"), ("email", .str "diego@example.com"),
    ("current_role", .str "Backend Engineer"), ("stage", .str "offer"),
    ("skills", .listV [.str "Python", .str "FastAPI", .str "MongoDB"]),
    ("assessment_scores", .mapV [("technical", .int 91), ("culture", .int 84),
      ("communication", .int 80)]),
    ("avatar_url", .str "https://i.pravatar.cc/120?img=15")]]

/-- The sample interview built from the candidate found at stage
"interview" (`str(cand._id)`, `cand.get("name")`; 4 hours = 14400 s). -/
def interviewSeedDoc (now : Nat) (cand : Nat × Doc) : Doc :=
  [("candidate_id", .str (renderId cand.1)),
   ("candidate_name", (lookupField cand.2 "name").getD .null),
   ("interviewer", .str "Alex Johnson"),
   ("time", .time (now + 14400)),
   ("status", .str "scheduled"),
   ("meeting_url", .str "https://meet.example.com/abc")]

/-- Insert a list of documents in order via `create_document`. -/
def insertAll (c : Coll) (ds : List Doc) (s : Store) : Store :=
  ds.foldl (fun acc d => (create_document c d acc).2) s

/-- First step of `seed_demo_data`: insert the sample jobs only when the
job collection is empty. -/
def seedJobs (now : Nat) (s : Store) : Store :=
  if count_documents .job .all s = 0
  then insertAll .job (sampleJobs now) s else s

/-- Second step of `seed_demo_data`: insert the sample candidates only when
the candidate collection is empty. -/
def seedCandidates (s : Store) : Store :=
  if count_documents .candidate .all s = 0
  then insertAll .candidate sampleCandidates s else s

/-- Third step of `seed_demo_data`: when the interview collection is empty,
insert one interview for the first candidate found at stage "interview"
(nothing is inserted when no such candidate exists). -/
def seedInterviews (now : Nat) (s : Store) : Store :=
  if count_documents .interview .all s = 0 then
    match find_one .candidate (.eqStr "stage" "interview") s with
    | some cand => (create_document .interview (interviewSeedDoc now cand) s).2
    | none => s
  else s

/-- The body of `seed_demo_data` once the store is known present: jobs,
candidates, interviews in order, each seeded only when its collection is
empty. -/
def seedBody (now : Nat) (s : Store) : Store :=
  seedInterviews now (seedCandidates (seedJobs now s))

/-- Handler of `POST /api/seed`: 500 when the store handle is absent, otherwise seeds
and answers `{"status": "ok"}`. -/
def seed_demo_data (now : Nat) (odb : Option Store) :
    Except HTTPError (Store × String) :=
  match odb with
  | none => .error ⟨500, "Database not available"⟩
  | some s => .ok (seedBody now s, "ok")

-- ---------- Auxiliary definitions used by the verification ----------

/-- Read a field of a document as a string, when it holds one. -/
def strField (d : Doc) (k : String) : Option String :=
  match lookupField d k with
  | some (.str s) => some s
  | _ => none

/-- Necessary condition for an email address to be syntactically valid:
it contains an `@` sign (required by `pydantic.EmailStr` in
`schemas.Candidate`). -/
def emailHasAt (e : String) : Bool :=
  e.data.any (fun ch => ch = '@')

/-- Create body for C1: a candidate whose `stage` is not one of the
declared stages. -/
def c1Candidate : CandidateIn :=
  { name := "Jordan Lee", email := "jordan@example.com", stage := "not-a-stage" }

/-- Create body for C4: a candidate whose `email` is not a syntactically
valid address. -/
def c4Candidate : CandidateIn :=
  { name := "Sam Doe", email := "plainaddress" }

/-- Concrete job create body used by the C2 witness (the example of §8:
only `title`, `department`, `owner` supplied, defaults filled in). -/
def c2Payload : Doc :=
  JobIn.model_dump { title := "QA Engineer", department := "Engineering", owner := "Sam" }

/-- Concrete candidate document used by the C3 counterexample and witness. -/
def c3Doc : Doc :=
  [("name", .str "Jordan Lee"), ("email", .str "jordan@example.com"),
   ("stage", .str "applied")]

/-- Concrete store used by the C3 counterexample and witness: one candidate
with internal id 0. -/
def c3Store : Store :=
  { docs := fun c => match c with
      | .candidate => [(0, c3Doc)]
      | _ => [],
    nextId := 1 }

/-- Concrete store used by the C8 counterexample and witness: one candidate
and one offer. -/
def c8Store : Store :=
  { docs := fun c => match c with
      | .candidate => [(0, [("name", .str "Jordan Lee"), ("stage", .str "interview")])]
      | .offer => [(1, [("candidate_name", .str "Jordan Lee"), ("status", .str "draft")])]
      | _ => [],
    nextId := 2 }

/-- Concrete store used by the C9 witness: two candidates and one job. -/
def c9Store : Store :=
  { docs := fun c => match c with
      | .candidate => [(0, [("name", .str "A"), ("stage", .str "applied")]),
                       (1, [("name", .str "B"), ("stage", .str "offer")])]
      | .job => [(2, [("title", .str "QA Engineer")])]
      | _ => [],
    nextId := 3 }

/-- Concrete feedback body used by the C10 witness. -/
def c10Feedback : FeedbackIn :=
  { interview_id := "bogus-body-id", candidate_id := "i",
    ratings := [("technical", 4)], recommendation := "proceed" }

-- ---------- General lemmas about documents and the store ----------

theorem renderId_injective : Function.Injective renderId := by
  intro m n h
  have hlen : (renderId m).length = (renderId n).length := by rw [h]
  simp only [renderId, String.length, List.length_replicate] at hlen
  omega

theorem renderId_ne_empty (n : Nat) : renderId n ≠ "" := by
  intro h
  have hlen : (renderId n).length = (0 : Nat) := by rw [h]; rfl
  simp [renderId, String.length] at hlen

theorem lookupField_cons_self (k : String) (v : Value) (d : Doc) :
    lookupField ((k, v) :: d) k = some v := by
  simp [lookupField, List.find?_cons]

theorem lookupField_cons_ne (k' k : String) (v : Value) (d : Doc) (h : k' ≠ k) :
    lookupField ((k', v) :: d) k = lookupField d k := by
  simp [lookupField, List.find?_cons, h]

theorem hasKey_cons (p : String × Value) (tl : Doc) (k : String) :
    hasKey (p :: tl) k = (decide (p.1 = k) || hasKey tl k) := rfl

theorem setField_cons_ne (p : String × Value) (tl : Doc) (k : String) (v : Value)
    (h : ¬ p.1 = k) :
    setField (p :: tl) k v = p :: setField tl k v := by
  by_cases htl : hasKey tl k
  · have hck : hasKey (p :: tl) k = true := by rw [hasKey_cons]; simp [htl]
    simp [setField, hck, htl, h]
  · have hck : hasKey (p :: tl) k = false := by rw [hasKey_cons]; simp [htl, h]
    simp [setField, hck, htl]

theorem lookupField_setField_self (d : Doc) (k : String) (v : Value) :
    lookupField (setField d k v) k = some v := by
  induction d with
  | nil => simp [setField, hasKey, lookupField]
  | cons p tl ih =>
    by_cases h : p.1 = k
    · have hck : hasKey (p :: tl) k = true := by simp [hasKey, List.any_cons, h]
      simp only [setField, hck, if_true, List.map_cons, h, if_pos]
      exact lookupField_cons_self k v _
    · rw [setField_cons_ne p tl k v h, lookupField_cons_ne p.1 k p.2 _ h]
      · exact ih

theorem lookupField_map_keyfix (d : Doc) (k k' : String) (v : Value) (h : k' ≠ k) :
    lookupField (d.map (fun p => if p.1 = k then (k, v) else p)) k'
      = lookupField d k' := by
  induction d with
  | nil => rfl
  | cons p tl ih =>
    rw [List.map_cons]
    by_cases hpk : p.1 = k
    · rw [if_pos hpk, lookupField_cons_ne k k' v _ (Ne.symm h),
        lookupField_cons_ne p.1 k' p.2 tl (hpk ▸ (Ne.symm h))]
      exact ih
    · rw [if_neg hpk]
      by_cases hpk' : p.1 = k'
      · cases p with
        | mk a b => subst hpk'; rw [lookupField_cons_self, lookupField_cons_self]
      · rw [lookupField_cons_ne p.1 k' p.2 _ hpk', lookupField_cons_ne p.1 k' p.2 tl hpk']
        exact ih

theorem lookupField_append_kv_ne (d : Doc) (k k' : String) (v : Value) (h : k' ≠ k) :
    lookupField (d ++ [(k, v)]) k' = lookupField d k' := by
  induction d with
  | nil => simp [lookupField, List.find?_cons, Ne.symm h]
  | cons p tl ih =>
    by_cases hpk' : p.1 = k'
    · cases p with
      | mk a b =>
        subst hpk'
        rw [List.cons_append, lookupField_cons_self, lookupField_cons_self]
    · rw [List.cons_append, lookupField_cons_ne p.1 k' p.2 _ hpk',
        lookupField_cons_ne p.1 k' p.2 tl hpk']
      exact ih

theorem lookupField_setField_ne (d : Doc) (k k' : String) (v : Value) (h : k' ≠ k) :
    lookupField (setField d k v) k' = lookupField d k' := by
  unfold setField
  by_cases hck : hasKey d k
  · rw [if_pos hck]
    exact lookupField_map_keyfix d k k' v h
  · rw [if_neg hck]
    exact lookupField_append_kv_ne d k k' v h

theorem setFields_pair (d : Doc) (k1 k2 : String) (v1 v2 : Value) :
    setFields d [(k1, v1), (k2, v2)] = setField (setField d k1 v1) k2 v2 := rfl

theorem lookupField_set2_fst (d : Doc) (k1 k2 : String) (v1 v2 : Value) (h : k1 ≠ k2) :
    lookupField (setFields d [(k1, v1), (k2, v2)]) k1 = some v1 := by
  rw [setFields_pair, lookupField_setField_ne _ k2 k1 v2 h,
    lookupField_setField_self]

theorem lookupField_set2_snd (d : Doc) (k1 k2 : String) (v1 v2 : Value) :
    lookupField (setFields d [(k1, v1), (k2, v2)]) k2 = some v2 := by
  rw [setFields_pair, lookupField_setField_self]

theorem lookupField_set2_other (d : Doc) (k1 k2 k : String) (v1 v2 : Value)
    (h1 : k ≠ k1) (h2 : k ≠ k2) :
    lookupField (setFields d [(k1, v1), (k2, v2)]) k = lookupField d k := by
  rw [setFields_pair, lookupField_setField_ne _ k2 k v2 h2,
    lookupField_setField_ne _ k1 k v1 h1]

theorem updateFirst_decomp (oid : Nat) (kvs : List (String × Value)) (l : List (Nat × Doc)) :
    ((∀ p ∈ l, p.1 ≠ oid) ∧ updateFirst oid kvs l = l) ∨
    ∃ l1 d l2, l = l1 ++ (oid, d) :: l2 ∧ (∀ p ∈ l1, p.1 ≠ oid) ∧
      updateFirst oid kvs l = l1 ++ (oid, setFields d kvs) :: l2 := by
  induction l with
  | nil => exact Or.inl ⟨(by intro p hp; cases hp), rfl⟩
  | cons p tl ih =>
    obtain ⟨i, d⟩ := p
    by_cases h : i = oid
    · subst h
      refine Or.inr ⟨[], d, tl, by simp, (by intro p hp; cases hp), ?_⟩
      simp [updateFirst]
    · cases ih with
      | inl hno =>
        refine Or.inl ⟨?_, ?_⟩
        · intro q hq
          cases List.mem_cons.mp hq with
          | inl he => rw [he]; exact h
          | inr ht => exact hno.1 q ht
        · simp [updateFirst, h, hno.2]
      | inr hex =>
        obtain ⟨l1, d0, l2, heq, hl1, hupd⟩ := hex
        refine Or.inr ⟨(i, d) :: l1, d0, l2, ?_, ?_, ?_⟩
        · rw [List.cons_append, heq]
        · intro q hq
          cases List.mem_cons.mp hq with
          | inl he => rw [he]; exact h
          | inr ht => exact hl1 q ht
        · simp [updateFirst, h, hupd]

theorem count_documents_all (c : Coll) (s : Store) :
    count_documents c .all s = (s.docs c).length := by
  unfold count_documents
  rw [List.filter_length_eq_length.mpr]
  intro p hp
  rfl

theorem create_document_docs_target (c : Coll) (payload : Doc) (s : Store) :
    ((create_document c payload s).2).docs c = s.docs c ++ [(s.nextId, payload)] := by
  simp [create_document]

theorem create_document_docs_other (c c2 : Coll) (payload : Doc) (s : Store) (h : c2 ≠ c) :
    ((create_document c payload s).2).docs c2 = s.docs c2 := by
  simp [create_document, h]

theorem insertAll_docs_target (c : Coll) (ds : List Doc) (s : Store) :
    ∃ news, (insertAll c ds s).docs c = s.docs c ++ news ∧ news.length = ds.length := by
  induction ds generalizing s with
  | nil => exact ⟨[], by simp [insertAll], rfl⟩
  | cons d tl ih =>
    obtain ⟨news, h1, h2⟩ := ih ((create_document c d s).2)
    refine ⟨(s.nextId, d) :: news, ?_, by simp [h2]⟩
    have hstep : insertAll c (d :: tl) s = insertAll c tl ((create_document c d s).2) := rfl
    rw [hstep, h1, create_document_docs_target]
    simp

theorem insertAll_docs_other (c c2 : Coll) (ds : List Doc) (s : Store) (h : c2 ≠ c) :
    (insertAll c ds s).docs c2 = s.docs c2 := by
  induction ds generalizing s with
  | nil => rfl
  | cons d tl ih =>
    have hstep : insertAll c (d :: tl) s = insertAll c tl ((create_document c d s).2) := rfl
    rw [hstep, ih, create_document_docs_other c c2 d s h]

theorem find_one_congr (c : Coll) (f : MFilter) (s t : Store)
    (h : s.docs c = t.docs c) : find_one c f s = find_one c f t := by
  unfold find_one
  rw [h]

theorem seedJobs_docs_other (now : Nat) (s : Store) (c2 : Coll) (h : c2 ≠ Coll.job) :
    (seedJobs now s).docs c2 = s.docs c2 := by
  unfold seedJobs
  split
  · exact insertAll_docs_other _ _ _ _ h
  · rfl

theorem seedCandidates_docs_other (s : Store) (c2 : Coll) (h : c2 ≠ Coll.candidate) :
    (seedCandidates s).docs c2 = s.docs c2 := by
  unfold seedCandidates
  split
  · exact insertAll_docs_other _ _ _ _ h
  · rfl

theorem seedInterviews_docs_other (now : Nat) (s : Store) (c2 : Coll)
    (h : c2 ≠ Coll.interview) :
    (seedInterviews now s).docs c2 = s.docs c2 := by
  unfold seedInterviews
  split
  · split
    · exact create_document_docs_other _ _ _ _ h
    · rfl
  · rfl

theorem seedJobs_job_len (now : Nat) (s : Store) :
    ((seedJobs now s).docs Coll.job).length ≠ 0 := by
  unfold seedJobs
  by_cases h : count_documents Coll.job .all s = 0
  · rw [if_pos h]
    obtain ⟨news, h1, h2⟩ := insertAll_docs_target Coll.job (sampleJobs now) s
    rw [h1, List.length_append, h2]
    have hs : (s.docs Coll.job).length = 0 := by
      rw [← count_documents_all]; exact h
    simp [hs, sampleJobs]
  · rw [if_neg h]
    rw [count_documents_all] at h
    exact h

theorem seedCandidates_cand_len (s : Store) :
    ((seedCandidates s).docs Coll.candidate).length ≠ 0 := by
  unfold seedCandidates
  by_cases h : count_documents Coll.candidate .all s = 0
  · rw [if_pos h]
    obtain ⟨news, h1, h2⟩ := insertAll_docs_target Coll.candidate sampleCandidates s
    rw [h1, List.length_append, h2]
    have hs : (s.docs Coll.candidate).length = 0 := by
      rw [← count_documents_all]; exact h
    simp [hs, sampleCandidates]
  · rw [if_neg h]
    rw [count_documents_all] at h
    exact h

theorem seedBody_idem (now1 now2 : Nat) (s : Store) :
    seedBody now2 (seedBody now1 s) = seedBody now1 s := by
  have htj : ((seedBody now1 s).docs Coll.job).length ≠ 0 := by
    unfold seedBody
    rw [seedInterviews_docs_other _ _ _ (by decide),
      seedCandidates_docs_other _ _ (by decide)]
    exact seedJobs_job_len now1 s
  have htc : ((seedBody now1 s).docs Coll.candidate).length ≠ 0 := by
    unfold seedBody
    rw [seedInterviews_docs_other _ _ _ (by decide)]
    exact seedCandidates_cand_len _
  have h1 : seedJobs now2 (seedBody now1 s) = seedBody now1 s := by
    unfold seedJobs
    rw [if_neg]
    rw [count_documents_all]
    exact htj
  have h2 : seedCandidates (seedBody now1 s) = seedBody now1 s := by
    unfold seedCandidates
    rw [if_neg]
    rw [count_documents_all]
    exact htc
  have hDecomp : seedBody now1 s
      = seedInterviews now1 (seedCandidates (seedJobs now1 s)) := rfl
  have h3 : seedInterviews now2 (seedBody now1 s) = seedBody now1 s := by
    by_cases hcnt : count_documents Coll.interview .all (seedBody now1 s) = 0
    · by_cases hu0 : count_documents Coll.interview .all
          (seedCandidates (seedJobs now1 s)) = 0
      · cases hfind : find_one Coll.candidate (.eqStr "stage" "interview")
            (seedCandidates (seedJobs now1 s)) with
        | some cand =>
          exfalso
          have hins : seedBody now1 s
              = (create_document Coll.interview (interviewSeedDoc now1 cand)
                  (seedCandidates (seedJobs now1 s))).2 := by
            rw [hDecomp]
            unfold seedInterviews
            rw [if_pos hu0, hfind]
          rw [count_documents_all, hins, create_document_docs_target,
            List.length_append] at hcnt
          simp at hcnt
        | none =>
          have hts : seedBody now1 s = seedCandidates (seedJobs now1 s) := by
            rw [hDecomp]
            unfold seedInterviews
            rw [if_pos hu0, hfind]
          unfold seedInterviews
          rw [if_pos hcnt]
          have hfind2 : find_one Coll.candidate (.eqStr "stage" "interview")
              (seedBody now1 s) = none := by
            rw [hts]
            exact hfind
          rw [hfind2]
      · exfalso
        have hts : seedBody now1 s = seedCandidates (seedJobs now1 s) := by
          rw [hDecomp]
          unfold seedInterviews
          rw [if_neg hu0]
        rw [hts] at hcnt
        exact hu0 hcnt
    · unfold seedInterviews
      rw [if_neg hcnt]
  calc seedBody now2 (seedBody now1 s)
      = seedInterviews now2 (seedCandidates (seedJobs now2 (seedBody now1 s))) := rfl
    _ = seedBody now1 s := by rw [h1, h2, h3]

theorem docMatches_ninSet_pair (d : Doc) (k a b : String) :
    docMatches (.ninSet k [a, b]) d
      = decide (strField d k ≠ some a ∧ strField d k ≠ some b) := by
  unfold docMatches strField
  cases h : lookupField d k with
  | none => simp [h]
  | some v =>
    cases v with
    | str s =>
      by_cases h1 : s = a
      · simp [h, h1, List.contains_cons]
      · by_cases h2 : s = b
        · simp [h, h2, List.contains_cons]
        · simp [h, h1, h2, List.contains_cons]
    | int n => simp [h]
    | bool bb => simp [h]
    | time t => simp [h]
    | listV vs => simp [h]
    | mapV kvs => simp [h]
    | null => simp [h]

theorem docMatches_inSet_triple (d : Doc) (k a b c : String) :
    docMatches (.inSet k [a, b, c]) d
      = decide (strField d k = some a ∨ strField d k = some b ∨ strField d k = some c) := by
  unfold docMatches strField
  cases h : lookupField d k with
  | none => simp [h]
  | some v =>
    cases v with
    | str s =>
      by_cases h1 : s = a
      · simp [h, h1, List.contains_cons]
      · by_cases h2 : s = b
        · simp [h, h2, List.contains_cons]
        · by_cases h3 : s = c
          · simp [h, h3, List.contains_cons]
          · simp [h, h1, h2, h3, List.contains_cons]
    | int n => simp [h]
    | bool bb => simp [h]
    | time t => simp [h]
    | listV vs => simp [h]
    | mapV kvs => simp [h]
    | null => simp [h]

theorem count_documents_eq_countP (c : Coll) (f : MFilter) (s : Store) :
    count_documents c f s = (s.docs c).countP (fun p => docMatches f p.2) := by
  unfold count_documents
  rw [List.countP_eq_length_filter]

-- ---------- Claim theorems ----------

/-- C1: refuted on the code (code bug). The create endpoints validate with
the loose `*In` request models, whose enumerated fields are plain strings
(`CandidateIn.stage : str`), not the `Literal` enums of `schemas.py`. A
POST body whose `stage` lies outside the declared set passes validation and
a document IS inserted — the store does receive the insert call,
contradicting "rejected before any document is created". -/
theorem c1_invalid_enum_value_is_inserted :
    "not-a-stage" ∉ candidateStages ∧
    ∀ s : Store,
      (create_candidate c1Candidate s).2.docs Coll.candidate
          = s.docs Coll.candidate ++ [(s.nextId, c1Candidate.model_dump)] ∧
      lookupField c1Candidate.model_dump "stage" = some (Value.str "not-a-stage") := by
  refine ⟨by decide, fun s => ⟨?_, rfl⟩⟩
  exact create_document_docs_target Coll.candidate c1Candidate.model_dump s

/-- C4: refuted on the code (code bug). `CandidateIn.email` is a plain
`str` (not `pydantic.EmailStr` as in `schemas.Candidate`), so a create body
whose email has no `@` at all passes request validation and the document is
inserted. -/
theorem c4_invalid_email_is_inserted :
    emailHasAt "plainaddress" = false ∧
    ∀ s : Store,
      (create_candidate c4Candidate s).2.docs Coll.candidate
          = s.docs Coll.candidate ++ [(s.nextId, c4Candidate.model_dump)] ∧
      lookupField c4Candidate.model_dump "email" = some (Value.str "plainaddress") := by
  refine ⟨by decide, fun s => ⟨?_, rfl⟩⟩
  exact create_document_docs_target Coll.candidate c4Candidate.model_dump s

/-- C7: refuted on the code (code bug). `MessageIn` declares no `timestamp`
field (any timestamp in the request body is dropped) and `create_message`
inserts `msg.model_dump()` verbatim, so every stored message document lacks
a timestamp — nothing sets it at creation time. -/
theorem c7_message_stored_without_timestamp :
    ∀ (m : MessageIn) (s : Store),
      (create_message m s).2.docs Coll.message
          = s.docs Coll.message ++ [(s.nextId, m.model_dump)] ∧
      hasKey m.model_dump "timestamp" = false ∧
      lookupField m.model_dump "timestamp" = none := by
  intro m s
  exact ⟨create_document_docs_target Coll.message m.model_dump s, rfl, rfl⟩

/-- C10: confirmed. `POST /api/interviews/{interview_id}/feedback` stores
`{**feedback.model_dump(), "interview_id": interview_id}`: the stored
document's `interview_id` equals the path parameter, overriding the body's
value, while every other field is stored as submitted. -/
theorem c10_feedback_path_id_overrides_body :
    ∀ (interview_id : String) (fb : FeedbackIn) (s : Store),
      (create_feedback interview_id fb s).2.docs Coll.feedback
          = s.docs Coll.feedback
            ++ [(s.nextId, setField fb.model_dump "interview_id" (.str interview_id))] ∧
      lookupField (setField fb.model_dump "interview_id" (.str interview_id)) "interview_id"
          = some (.str interview_id) ∧
      ∀ k, k ≠ "interview_id" →
        lookupField (setField fb.model_dump "interview_id" (.str interview_id)) k
          = lookupField fb.model_dump k := by
  intro iid fb s
  refine ⟨create_document_docs_target _ _ _, lookupField_setField_self _ _ _, ?_⟩
  intro k hk
  exact lookupField_setField_ne _ _ _ _ hk

/-- C10 witness: at a concrete request, the body's `candidate_id` is stored
unchanged next to the overridden `interview_id`. -/
theorem c10_feedback_witness :
    lookupField (setField c10Feedback.model_dump "interview_id" (Value.str "iii"))
        "candidate_id"
      = lookupField c10Feedback.model_dump "candidate_id" :=
  ((c10_feedback_path_id_overrides_body "iii" c10Feedback Store.empty).2).2
    "candidate_id" (by decide)

/-- C5: confirmed. `GET /api/metrics` returns `total_jobs` = number of job
documents, `active_candidates` = number of candidate documents whose stage
is not in \x7brejected, hired\x7d (MongoDB `$nin`, which also counts documents
without a string stage), `offers_sent` = number of offer documents whose
status is in \x7bsent, accepted, declined\x7d, and the literal placeholder
`time_to_fill = 24`; every count is 0 when the store handle is absent. -/
theorem c5_metrics_live_counts :
    (∀ odb, (get_metrics odb).time_to_fill = 24) ∧
    get_metrics none = ⟨0, 0, 0, 24⟩ ∧
    ∀ s : Store,
      (get_metrics (some s)).total_jobs = (s.docs Coll.job).length ∧
      (get_metrics (some s)).active_candidates
        = (s.docs Coll.candidate).countP
            (fun p => decide (strField p.2 "stage" ≠ some "rejected" ∧
                              strField p.2 "stage" ≠ some "hired")) ∧
      (get_metrics (some s)).offers_sent
        = (s.docs Coll.offer).countP
            (fun p => decide (strField p.2 "status" = some "sent" ∨
                              strField p.2 "status" = some "accepted" ∨
                              strField p.2 "status" = some "declined")) := by
  refine ⟨fun odb => rfl, rfl, fun s => ⟨?_, ?_, ?_⟩⟩
  · have h : (get_metrics (some s)).total_jobs = count_documents Coll.job .all s := rfl
    rw [h, count_documents_all]
  · have h : (get_metrics (some s)).active_candidates
        = count_documents Coll.candidate (.ninSet "stage" ["rejected", "hired"]) s := rfl
    rw [h, count_documents_eq_countP]
    congr 1
    funext p
    exact docMatches_ninSet_pair p.2 "stage" "rejected" "hired"
  · have h : (get_metrics (some s)).offers_sent
        = count_documents Coll.offer (.inSet "status" ["sent", "accepted", "declined"]) s := rfl
    rw [h, count_documents_eq_countP]
    congr 1
    funext p
    exact docMatches_inSet_triple p.2 "status" "sent" "accepted" "declined"

/-- C2: confirmed (adapter modelled from spec §4.1, `database.py` being
absent from `src/`). For any collection and any create payload without an
`id` key (no `*In` model dump has one), POST then GET shows the newly
created document carrying a non-empty `id` distinct from every other
document's id in every collection, and every submitted field is returned
with an unchanged value. -/
theorem c2_post_then_get_roundtrip (c : Coll) (payload : Doc) (s : Store)
    (hinv : StoreInv s) (hid : hasKey payload "id" = false) :
    (create_document c payload s).1 ≠ "" ∧
    (("id", Value.str (create_document c payload s).1) :: payload)
        ∈ get_documents c (create_document c payload s).2 ∧
    (∀ k v, (k, v) ∈ payload →
      lookupField (("id", Value.str (create_document c payload s).1) :: payload) k
        = lookupField payload k) ∧
    (∀ c2 d2, d2 ∈ get_documents c2 (create_document c payload s).2 →
      lookupField d2 "id" = some (.str (create_document c payload s).1) →
      c2 = c ∧ d2 = ("id", Value.str (create_document c payload s).1) :: payload) := by
  have hkeys : ∀ p ∈ payload, ¬ p.1 = "id" := by
    intro p hp hcontra
    have : payload.any (fun q => q.1 = "id") = true :=
      List.any_eq_true.mpr ⟨p, hp, by simp [hcontra]⟩
    rw [hasKey] at hid
    rw [hid] at this
    cases this
  refine ⟨by exact renderId_ne_empty s.nextId, ?_, ?_, ?_⟩
  · unfold get_documents
    rw [create_document_docs_target, List.map_append]
    apply List.mem_append_right
    simp
    rfl
  · intro k v hkv
    exact lookupField_cons_ne "id" k _ payload (fun h => (hkeys _ hkv) h.symm)
  · intro c2 d2 hd2 hlook
    unfold get_documents at hd2
    obtain ⟨p, hp, hd2eq⟩ := List.mem_map.mp hd2
    subst hd2eq
    rw [lookupField_cons_self] at hlook
    have hpid : p.1 = s.nextId := by
      have h1 : Value.str (renderId p.1) = Value.str (renderId s.nextId) :=
        Option.some.inj hlook
      exact renderId_injective (Value.str.inj h1)
    by_cases hc : c2 = c
    · subst hc
      rw [create_document_docs_target] at hp
      cases List.mem_append.mp hp with
      | inl hold =>
        exfalso
        have := hinv c2 p hold
        omega
      | inr hnew =>
        have hpv : p = (s.nextId, payload) := List.mem_singleton.mp hnew
        subst hpv
        exact ⟨rfl, rfl⟩
    · exfalso
      rw [create_document_docs_other c c2 payload s hc] at hp
      have := hinv c2 p hp
      omega

/-- C2 witness: the §8 example — POST a job with title "QA Engineer",
department "Engineering", owner "Sam" on the empty store; the created
document comes back with its submitted title unchanged. -/
theorem c2_post_then_get_witness :
    lookupField
        (("id", Value.str (create_document Coll.job c2Payload Store.empty).1) :: c2Payload)
        "title"
      = lookupField c2Payload "title" :=
  (c2_post_then_get_roundtrip Coll.job c2Payload Store.empty
      (by intro c p hp; simp [Store.empty] at hp)
      (by decide)).2.2.1
    "title" (Value.str "QA Engineer") (by simp [c2Payload, JobIn.model_dump])

theorem updateFirst_no_match (oid : Nat) (kvs : List (String × Value))
    (l : List (Nat × Doc)) (h : ∀ p ∈ l, p.1 ≠ oid) :
    updateFirst oid kvs l = l := by
  induction l with
  | nil => rfl
  | cons p tl ih =>
    obtain ⟨i, d⟩ := p
    have hi : i ≠ oid := h (i, d) (List.mem_cons_self _ _)
    rw [updateFirst, if_neg hi, ih (fun q hq => h q (List.mem_cons_of_mem _ hq))]

theorem updateFirst_first_match (oid : Nat) (kvs : List (String × Value))
    (l1 l2 : List (Nat × Doc)) (d : Doc) (h : ∀ p ∈ l1, p.1 ≠ oid) :
    updateFirst oid kvs (l1 ++ (oid, d) :: l2)
      = l1 ++ (oid, setFields d kvs) :: l2 := by
  induction l1 with
  | nil => simp [updateFirst]
  | cons p tl ih =>
    obtain ⟨i, d0⟩ := p
    have hi : i ≠ oid := h (i, d0) (List.mem_cons_self _ _)
    rw [List.cons_append, updateFirst, if_neg hi,
      ih (fun q hq => h q (List.mem_cons_of_mem _ hq)), List.cons_append]

/-- C3 counterexample: the claim says the endpoint validates that the stage
value is non-empty, but `StageUpdate.stage : str` accepts the empty string:
at id "i" (one existing candidate) with body stage = "", the endpoint
answers ok and writes the empty stage into the store. -/
theorem c3_empty_stage_accepted :
    update_candidate_stage "i" ⟨""⟩ 5 (some c3Store) none
      = .ok (update_one Coll.candidate 0
          [("stage", Value.str ""), ("updated_at", Value.time 5)] c3Store, "ok") ∧
    (update_one Coll.candidate 0
        [("stage", Value.str ""), ("updated_at", Value.time 5)] c3Store).docs Coll.candidate
      = [(0, setFields c3Doc [("stage", Value.str ""), ("updated_at", Value.time 5)])] ∧
    lookupField (setFields c3Doc [("stage", Value.str ""), ("updated_at", Value.time 5)])
        "stage"
      = some (Value.str "") := ⟨rfl, rfl, rfl⟩

/-- C3 (amended): with the store present and a well-formed id, the endpoint
accepts any string stage (present but possibly empty and unchecked against
the enum), sets the matching candidate's `stage` to it and `updated_at` to
now, and answers ok; when no candidate has the id, the update affects zero
documents — every collection is unchanged — and the response is the very
same success response. -/
theorem c3_stage_update (cid : String) (oid : Nat) (st : String) (now : Nat)
    (s : Store) (hp : parseObjectId cid = some oid) :
    update_candidate_stage cid ⟨st⟩ now (some s) none
      = .ok (update_one Coll.candidate oid
          [("stage", Value.str st), ("updated_at", Value.time now)] s, "ok") ∧
    ((∀ p ∈ s.docs Coll.candidate, p.1 ≠ oid) →
      ∀ c2, (update_one Coll.candidate oid
          [("stage", Value.str st), ("updated_at", Value.time now)] s).docs c2
        = s.docs c2) ∧
    (∀ l1 d l2, s.docs Coll.candidate = l1 ++ (oid, d) :: l2 →
      (∀ p ∈ l1, p.1 ≠ oid) →
      (update_one Coll.candidate oid
          [("stage", Value.str st), ("updated_at", Value.time now)] s).docs Coll.candidate
        = l1 ++ (oid, setFields d [("stage", Value.str st), ("updated_at", Value.time now)]) :: l2 ∧
      lookupField (setFields d [("stage", Value.str st), ("updated_at", Value.time now)])
          "stage" = some (Value.str st) ∧
      lookupField (setFields d [("stage", Value.str st), ("updated_at", Value.time now)])
          "updated_at" = some (Value.time now)) := by
  refine ⟨?_, ?_, ?_⟩
  · unfold update_candidate_stage
    rw [hp]
  · intro hno c2
    unfold update_one
    by_cases hc : c2 = Coll.candidate
    · subst hc
      simp only [if_pos rfl]
      exact updateFirst_no_match oid _ _ hno
    · simp only [if_neg hc]
  · intro l1 d l2 heq hl1
    refine ⟨?_, ?_, lookupField_set2_snd _ _ _ _ _⟩
    · unfold update_one
      simp only [if_pos rfl]
      rw [heq]
      exact updateFirst_first_match oid _ l1 l2 d hl1
    · exact lookupField_set2_fst _ _ _ _ _ (by decide)

/-- C3 witness: at id "i" on a store with one candidate of internal id 0,
the endpoint returns ok and performs the single-document update. -/
theorem c3_stage_update_witness :
    update_candidate_stage "i" ⟨"offer"⟩ 7 (some c3Store) none
      = .ok (update_one Coll.candidate 0
          [("stage", Value.str "offer"), ("updated_at", Value.time 7)] c3Store, "ok") :=
  (c3_stage_update "i" 0 "offer" 7 c3Store (by decide)).1

/-- C8 counterexample: a store error during the update (injected as the
caught exception of the `try` block) is answered with status 400 — a client
error carrying the raw message — on both transition endpoints, although the
ids "i" and "ii" are well-formed; the claim that 400 occurs only for
unparseable ids and that store errors surface as server errors fails. -/
theorem c8_store_error_surfaced_as_400 :
    update_candidate_stage "i" ⟨"hired"⟩ 3 (some c8Store) (some "connection reset")
      = .error ⟨400, "connection reset"⟩ ∧
    update_offer_status "ii" ⟨"sent"⟩ 3 (some c8Store) (some "connection reset")
      = .error ⟨400, "connection reset"⟩ := ⟨rfl, rfl⟩

/-- C8 (amended): both transition endpoints answer 500 when the store
handle is absent; with the store present they answer 400 both when the id
cannot be parsed into an ObjectId and when any store error occurs during
the update (the `try/except` turns every exception into a 400 with the raw
message — store errors are NOT surfaced as generic server errors); with a
parseable id and no store error they answer ok. -/
theorem c8_error_statuses :
    ∀ (cid : String) (stg : StageUpdate) (ost : OfferStatus) (now : Nat)
      (s : Store) (se : Option String) (msg : String),
      (update_candidate_stage cid stg now none se
          = .error ⟨500, "Database not available"⟩ ∧
       update_offer_status cid ost now none se
          = .error ⟨500, "Database not available"⟩) ∧
      (parseObjectId cid = none →
        update_candidate_stage cid stg now (some s) se
            = .error ⟨400, "invalid ObjectId"⟩ ∧
        update_offer_status cid ost now (some s) se
            = .error ⟨400, "invalid ObjectId"⟩) ∧
      (∀ oid, parseObjectId cid = some oid →
        update_candidate_stage cid stg now (some s) (some msg) = .error ⟨400, msg⟩ ∧
        update_offer_status cid ost now (some s) (some msg) = .error ⟨400, msg⟩) ∧
      (∀ oid, parseObjectId cid = some oid →
        update_candidate_stage cid stg now (some s) none
            = .ok (update_one Coll.candidate oid
                [("stage", Value.str stg.stage), ("updated_at", Value.time now)] s, "ok") ∧
        update_offer_status cid ost now (some s) none
            = .ok (update_one Coll.offer oid
                [("status", Value.str ost.status), ("updated_at", Value.time now)] s, "ok")) := by
  intro cid stg ost now s se msg
  refine ⟨⟨rfl, rfl⟩, ?_, ?_, ?_⟩
  · intro hnone
    constructor
    · unfold update_candidate_stage
      rw [hnone]
    · unfold update_offer_status
      rw [hnone]
  · intro oid hsome
    constructor
    · unfold update_candidate_stage
      rw [hsome]
    · unfold update_offer_status
      rw [hsome]
  · intro oid hsome
    constructor
    · unfold update_candidate_stage
      rw [hsome]
    · unfold update_offer_status
      rw [hsome]

/-- C8 witness: a malformed id yields 400 on the candidate endpoint of a
concrete store. -/
theorem c8_error_statuses_witness :
    update_candidate_stage "zz" ⟨"hired"⟩ 0 (some c8Store) none
      = .error ⟨400, "invalid ObjectId"⟩ :=
  ((c8_error_statuses "zz" ⟨"hired"⟩ ⟨"sent"⟩ 0 c8Store none "boom").2.1 (by decide)).1

/-- C9: confirmed. A successful stage (resp. status) transition touches at
most the first candidate (resp. offer) whose internal id matches: either no
document matches and the collection is unchanged, or exactly one document
is rewritten with only `stage` (resp. `status`) and `updated_at` set —
every other field keeps its value, every other document of the collection
and every other collection are untouched. -/
theorem c9_transition_frame :
    (∀ (cid : String) (payload : StageUpdate) (now : Nat) (s s' : Store) (r : String),
      update_candidate_stage cid payload now (some s) none = .ok (s', r) →
      (∀ c2, c2 ≠ Coll.candidate → s'.docs c2 = s.docs c2) ∧
      (s'.docs Coll.candidate = s.docs Coll.candidate ∨
        ∃ l1 i d l2,
          s.docs Coll.candidate = l1 ++ (i, d) :: l2 ∧ (∀ p ∈ l1, p.1 ≠ i) ∧
          s'.docs Coll.candidate
            = l1 ++ (i, setFields d
                [("stage", Value.str payload.stage), ("updated_at", Value.time now)]) :: l2 ∧
          ∀ k, k ≠ "stage" → k ≠ "updated_at" →
            lookupField (setFields d
                [("stage", Value.str payload.stage), ("updated_at", Value.time now)]) k
              = lookupField d k)) ∧
    (∀ (oid2 : String) (payload : OfferStatus) (now : Nat) (s s' : Store) (r : String),
      update_offer_status oid2 payload now (some s) none = .ok (s', r) →
      (∀ c2, c2 ≠ Coll.offer → s'.docs c2 = s.docs c2) ∧
      (s'.docs Coll.offer = s.docs Coll.offer ∨
        ∃ l1 i d l2,
          s.docs Coll.offer = l1 ++ (i, d) :: l2 ∧ (∀ p ∈ l1, p.1 ≠ i) ∧
          s'.docs Coll.offer
            = l1 ++ (i, setFields d
                [("status", Value.str payload.status), ("updated_at", Value.time now)]) :: l2 ∧
          ∀ k, k ≠ "status" → k ≠ "updated_at" →
            lookupField (setFields d
                [("status", Value.str payload.status), ("updated_at", Value.time now)]) k
              = lookupField d k)) := by
  constructor
  · intro cid payload now s s' r h
    unfold update_candidate_stage at h
    cases hparse : parseObjectId cid with
    | none =>
      rw [hparse] at h
      cases h
    | some oid =>
      rw [hparse] at h
      injection h with h1
      injection h1 with h2 h3
      subst h2
      refine ⟨?_, ?_⟩
      · intro c2 hc2
        unfold update_one
        simp only [if_neg hc2]
      · rcases updateFirst_decomp oid
            [("stage", Value.str payload.stage), ("updated_at", Value.time now)]
            (s.docs Coll.candidate) with ⟨hno, hupd⟩ | ⟨l1, d, l2, heq, hl1, hupd⟩
        · left
          unfold update_one
          simp only [if_pos rfl]
          exact hupd
        · right
          refine ⟨l1, oid, d, l2, heq, hl1, ?_, ?_⟩
          · unfold update_one
            simp only [if_pos rfl]
            exact hupd
          · intro k hk1 hk2
            exact lookupField_set2_other d _ _ k _ _ hk1 hk2
  · intro oid2 payload now s s' r h
    unfold update_offer_status at h
    cases hparse : parseObjectId oid2 with
    | none =>
      rw [hparse] at h
      cases h
    | some oid =>
      rw [hparse] at h
      injection h with h1
      injection h1 with h2 h3
      subst h2
      refine ⟨?_, ?_⟩
      · intro c2 hc2
        unfold update_one
        simp only [if_neg hc2]
      · rcases updateFirst_decomp oid
            [("status", Value.str payload.status), ("updated_at", Value.time now)]
            (s.docs Coll.offer) with ⟨hno, hupd⟩ | ⟨l1, d, l2, heq, hl1, hupd⟩
        · left
          unfold update_one
          simp only [if_pos rfl]
          exact hupd
        · right
          refine ⟨l1, oid, d, l2, heq, hl1, ?_, ?_⟩
          · unfold update_one
            simp only [if_pos rfl]
            exact hupd
          · intro k hk1 hk2
            exact lookupField_set2_other d _ _ k _ _ hk1 hk2

/-- C9 witness: a concrete stage transition on a store with two candidates
and a job leaves the job collection untouched. -/
theorem c9_transition_frame_witness :
    (update_one Coll.candidate 0
        [("stage", Value.str "screening"), ("updated_at", Value.time 9)] c9Store).docs
        Coll.job
      = c9Store.docs Coll.job :=
  (c9_transition_frame.1 "i" ⟨"screening"⟩ 9 c9Store
      (update_one Coll.candidate 0
        [("stage", Value.str "screening"), ("updated_at", Value.time 9)] c9Store)
      "ok" rfl).1 Coll.job (by decide)

/-- C6: confirmed. `POST /api/seed` answers a 500 server error when the
store handle is absent and ok otherwise; seeding inserts the sample data
only into empty collections, so running it twice leaves the job, candidate
and interview counts exactly as after a single run (the second run is a
no-op on the store). -/
theorem c6_seed_idempotent (now1 now2 : Nat) :
    seed_demo_data now1 none = .error ⟨500, "Database not available"⟩ ∧
    ∀ s : Store,
      seed_demo_data now1 (some s) = .ok (seedBody now1 s, "ok") ∧
      seed_demo_data now2 (some (seedBody now1 s))
        = .ok (seedBody now2 (seedBody now1 s), "ok") ∧
      ((seedBody now2 (seedBody now1 s)).docs Coll.job).length
        = ((seedBody now1 s).docs Coll.job).length ∧
      ((seedBody now2 (seedBody now1 s)).docs Coll.candidate).length
        = ((seedBody now1 s).docs Coll.candidate).length ∧
      ((seedBody now2 (seedBody now1 s)).docs Coll.interview).length
        = ((seedBody now1 s).docs Coll.interview).length := by
  refine ⟨rfl, fun s => ⟨rfl, rfl, ?_, ?_, ?_⟩⟩ <;> rw [seedBody_idem]

/-- C1 witness: on the empty store, the out-of-enum stage "not-a-stage" is
stored verbatim. -/
theorem c1_invalid_enum_witness :
    lookupField c1Candidate.model_dump "stage" = some (Value.str "not-a-stage") :=
  (c1_invalid_enum_value_is_inserted.2 Store.empty).2

/-- C4 witness: on the empty store, the invalid email "plainaddress" is
stored verbatim. -/
theorem c4_invalid_email_witness :
    lookupField c4Candidate.model_dump "email" = some (Value.str "plainaddress") :=
  (c4_invalid_email_is_inserted.2 Store.empty).2

/-- C5 witness: on the empty store, `total_jobs` is the job count. -/
theorem c5_metrics_witness :
    (get_metrics (some Store.empty)).total_jobs
      = (Store.empty.docs Coll.job).length :=
  (c5_metrics_live_counts.2.2 Store.empty).1

/-- C6 witness: seeding the empty store twice leaves the job count of a
single seeding. -/
theorem c6_seed_idempotent_witness :
    ((seedBody 1 (seedBody 0 Store.empty)).docs Coll.job).length
      = ((seedBody 0 Store.empty).docs Coll.job).length :=
  ((c6_seed_idempotent 0 1).2 Store.empty).2.2.1

/-- C7 witness: a concrete message is stored without any timestamp. -/
theorem c7_message_witness :
    lookupField (MessageIn.model_dump ⟨"hr", "jordan", "welcome"⟩) "timestamp" = none :=
  (c7_message_stored_without_timestamp ⟨"hr", "jordan", "welcome"⟩ Store.empty).2.2
